import Mathlib

/-!
Verification of the iContact API client (`icontact/client.py`): the JSON
normalizer `json_to_obj`, the request builder/dispatcher `_do_request`,
the statistics parser `_parse_stats`, and the cached resolution of
account / client-folder ids in `_required_values`.
-/

/-- Decoded JSON values, as returned by the HTTP layer's structured-data
decoder (`req.json()`): null, booleans, numbers, strings, arrays and
objects (key/value mappings, keys in document order). -/
inductive Json where
  | null
  | bool (b : Bool)
  | num (n : Int)
  | str (s : String)
  | arr (elems : List Json)
  | dict (kvs : List (String × Json))
deriving Repr

/-- Python runtime values produced by `json_to_obj`: scalars, lists, and
the dynamically shaped `Object` whose `__dict__` maps attribute names to
values. -/
inductive PyVal where
  | null
  | bool (b : Bool)
  | num (n : Int)
  | str (s : String)
  | list (elems : List PyVal)
  | object (attrs : List (String × PyVal))
deriving Repr

mutual
/-- `json_to_obj` (client.py:30-43): lists are converted element-wise,
mappings become attribute objects with each value converted recursively,
and any non-dict value is returned unchanged. -/
def json_to_obj : Json → PyVal
  | .null => .null
  | .bool b => .bool b
  | .num n => .num n
  | .str s => .str s
  | .arr elems => .list (json_to_obj_elems elems)
  | .dict kvs => .object (json_to_obj_attrs kvs)

/-- Element-wise conversion `[json_to_obj(x) for x in json_data]`. -/
def json_to_obj_elems : List Json → List PyVal
  | [] => []
  | x :: xs => json_to_obj x :: json_to_obj_elems xs

/-- The loop `for k in json_data: o.__dict__[k] = json_to_obj(json_data[k])`. -/
def json_to_obj_attrs : List (String × Json) → List (String × PyVal)
  | [] => []
  | (k, v) :: rest => (k, json_to_obj v) :: json_to_obj_attrs rest
end

mutual
/-- Structural inverse of `json_to_obj`, used to state that the original
JSON structure survives conversion. -/
def obj_to_json : PyVal → Json
  | .null => .null
  | .bool b => .bool b
  | .num n => .num n
  | .str s => .str s
  | .list elems => .arr (obj_to_json_elems elems)
  | .object attrs => .dict (obj_to_json_attrs attrs)

def obj_to_json_elems : List PyVal → List Json
  | [] => []
  | x :: xs => obj_to_json x :: obj_to_json_elems xs

def obj_to_json_attrs : List (String × PyVal) → List (String × Json)
  | [] => []
  | (k, v) :: rest => (k, obj_to_json v) :: obj_to_json_attrs rest
end

/-- Python attribute access on a converted value: defined exactly for
`Object` values, on the attribute dictionary (first binding wins, as in a
Python dict no key repeats). -/
def pyGetattr : PyVal → String → Option PyVal
  | .object attrs, k => (attrs.find? (fun p => p.1 = k)).map (fun p => p.2)
  | _, _ => none

/-- Key lookup in a decoded JSON mapping. -/
def jsonLookup (kvs : List (String × Json)) (k : String) : Option Json :=
  (kvs.find? (fun p => p.1 = k)).map (fun p => p.2)

mutual
theorem json_to_obj_leftInverse : ∀ j : Json, obj_to_json (json_to_obj j) = j
  | .null => rfl
  | .bool _ => rfl
  | .num _ => rfl
  | .str _ => rfl
  | .arr elems => by
      simp [json_to_obj, obj_to_json, json_to_obj_elems_leftInverse elems]
  | .dict kvs => by
      simp [json_to_obj, obj_to_json, json_to_obj_attrs_leftInverse kvs]

theorem json_to_obj_elems_leftInverse :
    ∀ xs : List Json, obj_to_json_elems (json_to_obj_elems xs) = xs
  | [] => rfl
  | x :: xs => by
      simp [json_to_obj_elems, obj_to_json_elems, json_to_obj_leftInverse x,
        json_to_obj_elems_leftInverse xs]

theorem json_to_obj_attrs_leftInverse :
    ∀ kvs : List (String × Json), obj_to_json_attrs (json_to_obj_attrs kvs) = kvs
  | [] => rfl
  | (k, v) :: rest => by
      simp [json_to_obj_attrs, obj_to_json_attrs, json_to_obj_leftInverse v,
        json_to_obj_attrs_leftInverse rest]
end

theorem json_to_obj_attrs_find (kvs : List (String × Json)) (k : String) :
    (json_to_obj_attrs kvs).find? (fun p => p.1 = k)
      = (kvs.find? (fun p => p.1 = k)).map (fun p => (p.1, json_to_obj p.2)) := by
  induction kvs with
  | nil => rfl
  | cons hd tl ih =>
      obtain ⟨hk, hv⟩ := hd
      by_cases h : hk = k <;> simp [json_to_obj_attrs, List.find?, h, ih]

/-- C2: `json_to_obj` preserves the whole structure: scalars pass through
unchanged, reading any key of a converted mapping as an attribute returns
the converted (hence, by the left-inverse part, structurally equal)
original value, lists convert element-wise, and the conversion is
invertible, so the input round-trips. -/
theorem json_to_obj_roundtrip :
    (∀ j : Json, obj_to_json (json_to_obj j) = j)
    ∧ (∀ kvs : List (String × Json), ∀ k : String,
        pyGetattr (json_to_obj (.dict kvs)) k = (jsonLookup kvs k).map json_to_obj)
    ∧ (∀ elems : List Json, json_to_obj (.arr elems) = .list (elems.map json_to_obj))
    ∧ json_to_obj .null = .null
    ∧ (∀ b, json_to_obj (.bool b) = .bool b)
    ∧ (∀ n, json_to_obj (.num n) = .num n)
    ∧ (∀ s, json_to_obj (.str s) = .str s) := by
  refine ⟨json_to_obj_leftInverse, ?_, ?_, rfl, fun _ => rfl, fun _ => rfl, fun _ => rfl⟩
  · intro kvs k
    simp only [json_to_obj, pyGetattr, jsonLookup, json_to_obj_attrs_find]
    cases kvs.find? (fun p => p.1 = k) <;> rfl
  · intro elems
    have h : ∀ xs : List Json, json_to_obj_elems xs = xs.map json_to_obj := by
      intro xs
      induction xs with
      | nil => rfl
      | cons x xs ih => simp [json_to_obj_elems, ih]
    simp [json_to_obj, h]

/-- Client configuration fields read by `_do_request` (client.py:62-95). -/
structure ClientConfig where
  api_key : String
  api_version : String
  username : String
  password : String
  url : String
  log_enabled : Bool
deriving Repr, DecidableEq

/-- `'text/xml' if response_type == 'xml' else 'application/json'`
(client.py:125). -/
def type_header (response_type : String) : String :=
  if response_type = "xml" then "text/xml" else "application/json"

/-- The header dictionary built at client.py:126-133. -/
def request_headers (cfg : ClientConfig) (response_type : String) : List (String × String) :=
  [("Accept", type_header response_type),
   ("Content-Type", type_header response_type),
   ("Api-Version", cfg.api_version),
   ("Api-AppId", cfg.api_key),
   ("Api-Username", cfg.username),
   ("API-Password", cfg.password)]

/-- How the parameter mapping is attached to the outgoing request:
not at all (`parameters` empty), as a query string (`params=`), as a
structured-data body (`json=`), or form-encoded (`data=`). -/
inductive ParamEncoding where
  | absent
  | query (params : List (String × String))
  | jsonBody (params : List (String × String))
  | formBody (params : List (String × String))
deriving Repr, DecidableEq

/-- Python's `str.lower()` on the HTTP verb strings used here: per-character
ASCII lowercasing. -/
def pyLower (s : String) : String := ⟨s.data.map Char.toLower⟩

/-- The encoding decision of client.py:139-146: nothing when the mapping
is empty; a query string for `get` (verb lowercased first); otherwise a
body, structured-data when `params_as_json` is set or the verb is `put`,
form-encoded otherwise. -/
def encode_params (parameters : List (String × String)) (method : String)
    (params_as_json : Bool) : ParamEncoding :=
  if parameters.isEmpty then .absent
  else if pyLower method = "get" then .query parameters
  else if params_as_json || pyLower method = "put" then .jsonBody parameters
  else .formBody parameters

/-- Standard application/x-www-form-urlencoded rendering of a query
string, as the HTTP layer appends it to the URL for `params=`. -/
def urlencode (params : List (String × String)) : String :=
  String.intercalate "&" (params.map (fun p => p.1 ++ "=" ++ p.2))

/-- The URL the HTTP layer actually requests: the composed URL, plus a
`?`-separated query component exactly when query parameters were given. -/
def effective_url (base_and_path : String) : ParamEncoding → String
  | .query ps => base_and_path ++ "?" ++ urlencode ps
  | _ => base_and_path

/-- An HTTP response as `_do_request` consumes it: the status code and
the body decoded as structured data (`req.json()`); for markup responses
the parsed tree is kept opaque, so only the status matters. -/
structure HttpResponse where
  status_code : Nat
  json_of_body : Json
deriving Repr

/-- The value `_do_request` returns on success: an attribute object graph
for structured-data responses, a markup tree for `response_type='xml'`
(the tree itself is irrelevant to the claims, only that it is not an
attribute object, so it is kept opaque). -/
inductive RawResult where
  | jsonResult (v : PyVal)
  | xmlResult
deriving Repr

/-- The exceptions that the response-evaluation half of `_do_request` can
raise: the typed `IContactServerError(http_status, errors)`
(client.py:46-52, raised at 162-163), or Python's `AttributeError` when
`result.errors` is evaluated on a value with no `errors` attribute (a
markup tree, or an object graph whose top level lacks that key). -/
inductive DoRequestError where
  | serverError (http_status : Nat) (errors : PyVal)
  | attributeError
deriving Repr

/-- One complete run of `_do_request` (client.py:108-165) against a given
response: the composed URL, the headers, the chosen parameter encoding,
the emitted log lines, and the outcome (the parsed result, or the raised
exception). -/
structure DoRequestRun where
  url : String
  headers : List (String × String)
  encoding : ParamEncoding
  log_lines : List String
  outcome : Except DoRequestError RawResult
deriving Repr

/-- `log_me` (client.py:576-578): append the message to the debug log
only when `log_enabled` is set. -/
def log_me (cfg : ClientConfig) (lines : List String) (msg : String) : List String :=
  if cfg.log_enabled then lines ++ [msg] else lines

/-- Parsing of the response body per `response_type` (client.py:153-160):
markup responses keep the parsed tree; otherwise the decoded
structured-data body goes through `json_to_obj`. -/
def parse_response (response_type : String) (resp : HttpResponse) : RawResult :=
  if response_type = "xml" then .xmlResult
  else .jsonResult (json_to_obj resp.json_of_body)

/-- `result.errors` on the parsed result: attribute lookup on an object
graph; a markup tree has no `errors` attribute. -/
def result_errors : RawResult → Option PyVal
  | .jsonResult v => pyGetattr v "errors"
  | .xmlResult => none

/-- `_do_request` (client.py:108-165), given the response the HTTP layer
produced for the dispatched request: defaults the parameter mapping,
composes `url = self.url + call_path`, builds headers, chooses the
parameter encoding, logs around the exchange, parses the body, and
raises `IContactServerError(response_status, result.errors)` when the
status is at least 400, returning the parsed result otherwise. -/
def do_request (cfg : ClientConfig) (call_path : String)
    (parameters : Option (List (String × String))) (method : String)
    (response_type : String) (params_as_json : Bool)
    (resp : HttpResponse) : DoRequestRun :=
  let ps := parameters.getD []
  let url := cfg.url ++ call_path
  let headers := request_headers cfg response_type
  let enc := encode_params ps method params_as_json
  let lines := log_me cfg [] ("Invoking API method " ++ method ++ " with URL: " ++ url)
  let lines := log_me cfg lines ("response.status=" ++ toString resp.status_code)
  let result := parse_response response_type resp
  let lines := log_me cfg lines "response body"
  let outcome : Except DoRequestError RawResult :=
    if 400 ≤ resp.status_code then
      match result_errors result with
      | some errs => .error (.serverError resp.status_code errs)
      | none => .error .attributeError
    else
      .ok result
  { url := url, headers := headers, encoding := enc, log_lines := lines,
    outcome := outcome }

/-- C1: when the response status is at least 400 and the decoded body
carries the API's error-message list under `errors`, `_do_request` raises
`IContactServerError` holding exactly that status and that list
(converted like the rest of the body); for any status under 400 no
exception is raised and the parsed result is returned. -/
theorem do_request_error_handling (cfg : ClientConfig) (call_path : String)
    (parameters : Option (List (String × String))) (method : String)
    (params_as_json : Bool) (resp : HttpResponse) :
    (∀ kvs errs, 400 ≤ resp.status_code →
        resp.json_of_body = .dict kvs →
        jsonLookup kvs "errors" = some errs →
        (do_request cfg call_path parameters method "json" params_as_json resp).outcome
          = .error (.serverError resp.status_code (json_to_obj errs)))
    ∧ (∀ response_type, resp.status_code < 400 →
        (do_request cfg call_path parameters method response_type params_as_json resp).outcome
          = .ok (parse_response response_type resp)) := by
  constructor
  · intro kvs errs hge hbody herrs
    have hne : ¬ resp.status_code < 400 := Nat.not_lt.mpr hge
    have hget : pyGetattr (json_to_obj resp.json_of_body) "errors" = some (json_to_obj errs) := by
      rw [hbody]
      have := json_to_obj_roundtrip.2.1 kvs "errors"
      rw [this, herrs]
      rfl
    simp [do_request, parse_response, result_errors, hge, hget]
  · intro response_type hlt
    have hne : ¬ 400 ≤ resp.status_code := Nat.not_le.mpr hlt
    simp [do_request, hne]

/-- Closed instance of C1: a 400 response whose body is
`{"errors": ["Bad request"]}` raises the typed server error carrying
status 400 and that message list, and the same request against a 200
response returns the converted body without error. -/
theorem do_request_error_handling_witness :
    ((do_request ⟨"k", "2.2", "u", "p", "https://app.icontact.com/icp/", false⟩ "a" none
        "get" "json" false
        ⟨400, .dict [("errors", .arr [.str "Bad request"])]⟩).outcome
      = .error (.serverError 400 (json_to_obj (.arr [.str "Bad request"]))))
    ∧ ((do_request ⟨"k", "2.2", "u", "p", "https://app.icontact.com/icp/", false⟩ "a" none
        "get" "json" false
        ⟨200, .dict [("accounts", .arr [])]⟩).outcome
      = .ok (parse_response "json" ⟨200, .dict [("accounts", .arr [])]⟩)) := by
  constructor
  · exact (do_request_error_handling _ "a" none "get" false
      ⟨400, .dict [("errors", .arr [.str "Bad request"])]⟩).1
      [("errors", .arr [.str "Bad request"])] (.arr [.str "Bad request"])
      (by decide) rfl rfl
  · exact (do_request_error_handling _ "a" none "get" false
      ⟨200, .dict [("accounts", .arr [])]⟩).2 "json" (by decide)

/-- C7: with an omitted (`None`, the default) or empty parameter mapping,
the URL actually requested is exactly `base ++ path`: no query component
is appended and no trailing `?` appears, for every verb, response type
and flag value. -/
theorem empty_params_url (cfg : ClientConfig) (call_path : String)
    (parameters : Option (List (String × String))) (method : String)
    (response_type : String) (params_as_json : Bool) (resp : HttpResponse) :
    parameters.getD [] = [] →
      (do_request cfg call_path parameters method response_type params_as_json resp).encoding
          = .absent
      ∧ effective_url
          (do_request cfg call_path parameters method response_type params_as_json resp).url
          (do_request cfg call_path parameters method response_type params_as_json resp).encoding
        = cfg.url ++ call_path := by
  intro hps
  have henc : (do_request cfg call_path parameters method response_type
      params_as_json resp).encoding = .absent := by
    simp [do_request, encode_params, hps]
  refine ⟨henc, ?_⟩
  rw [henc]
  simp [do_request, effective_url]

/-- Closed instance of C7: omitted parameters on a concrete request give
the bare concatenated URL with no `?`. -/
theorem empty_params_url_witness :
    (do_request ⟨"k", "2.2", "u", "p", "https://app.icontact.com/icp/", false⟩ "a" none
        "get" "json" false ⟨200, .dict []⟩).encoding = .absent
    ∧ effective_url
        (do_request ⟨"k", "2.2", "u", "p", "https://app.icontact.com/icp/", false⟩ "a" none
          "get" "json" false ⟨200, .dict []⟩).url
        (do_request ⟨"k", "2.2", "u", "p", "https://app.icontact.com/icp/", false⟩ "a" none
          "get" "json" false ⟨200, .dict []⟩).encoding
      = "https://app.icontact.com/icp/" ++ "a" :=
  empty_params_url _ "a" none "get" "json" false ⟨200, .dict []⟩ rfl

/-- C8: for a non-empty parameter mapping the encoding is decided by the
lowercased verb: any casing of `get` yields a query string; every other
verb sends the parameters as a request body, structured-data encoded when
`params_as_json` is set or the lowercased verb is `put`, form-encoded
otherwise. -/
theorem encoding_by_verb (cfg : ClientConfig) (call_path : String)
    (ps : List (String × String)) (method : String) (response_type : String)
    (params_as_json : Bool) (resp : HttpResponse) :
    ps ≠ [] →
      (pyLower method = "get" →
        (do_request cfg call_path (some ps) method response_type params_as_json resp).encoding
          = .query ps)
      ∧ (pyLower method ≠ "get" →
        (do_request cfg call_path (some ps) method response_type params_as_json resp).encoding
          = if params_as_json || pyLower method = "put" then .jsonBody ps else .formBody ps) := by
  intro hne
  have hempty : ps.isEmpty = false := by
    cases ps with
    | nil => exact absurd rfl hne
    | cons x xs => rfl
  constructor
  · intro hget
    simp [do_request, encode_params, hempty, hget]
  · intro hnotget
    by_cases hj : (params_as_json || pyLower method = "put") = true <;>
      simp [do_request, encode_params, hempty, hnotget, hj]

/-- Closed instance of C8: a mixed-case `GeT` sends a query string, a
`PoSt` with the flag unset sends a form body, with the flag set a
structured-data body, and a `PuT` sends a structured-data body even with
the flag unset. -/
theorem encoding_by_verb_witness :
    ((do_request ⟨"k", "2.2", "u", "p", "b", false⟩ "a" (some [("x", "1")]) "GeT"
        "json" false ⟨200, .dict []⟩).encoding = .query [("x", "1")])
    ∧ ((do_request ⟨"k", "2.2", "u", "p", "b", false⟩ "a" (some [("x", "1")]) "PoSt"
        "json" false ⟨200, .dict []⟩).encoding = .formBody [("x", "1")])
    ∧ ((do_request ⟨"k", "2.2", "u", "p", "b", false⟩ "a" (some [("x", "1")]) "PoSt"
        "json" true ⟨200, .dict []⟩).encoding = .jsonBody [("x", "1")])
    ∧ ((do_request ⟨"k", "2.2", "u", "p", "b", false⟩ "a" (some [("x", "1")]) "PuT"
        "json" false ⟨200, .dict []⟩).encoding = .jsonBody [("x", "1")]) := by
  refine ⟨?_, ?_, ?_, ?_⟩
  · exact (encoding_by_verb ⟨"k", "2.2", "u", "p", "b", false⟩ "a" [("x", "1")] "GeT"
      "json" false ⟨200, .dict []⟩ (by decide)).1 (by decide)
  · have h := (encoding_by_verb ⟨"k", "2.2", "u", "p", "b", false⟩ "a" [("x", "1")] "PoSt"
      "json" false ⟨200, .dict []⟩ (by decide)).2 (by decide)
    simpa using h
  · have h := (encoding_by_verb ⟨"k", "2.2", "u", "p", "b", false⟩ "a" [("x", "1")] "PoSt"
      "json" true ⟨200, .dict []⟩ (by decide)).2 (by decide)
    simpa using h
  · have h := (encoding_by_verb ⟨"k", "2.2", "u", "p", "b", false⟩ "a" [("x", "1")] "PuT"
      "json" false ⟨200, .dict []⟩ (by decide)).2 (by decide)
    simpa using h

/-- C9: the `log_enabled` flag is invisible to everything but the log:
two runs of `_do_request` on identical inputs and an identical response,
one with logging on and one with it off, produce the same URL, headers,
parameter encoding and outcome (same result or same raised error). -/
theorem log_enabled_noninterference (cfg : ClientConfig) (e₁ e₂ : Bool)
    (call_path : String) (parameters : Option (List (String × String)))
    (method : String) (response_type : String) (params_as_json : Bool)
    (resp : HttpResponse) :
    (do_request { cfg with log_enabled := e₁ } call_path parameters method
        response_type params_as_json resp).outcome
      = (do_request { cfg with log_enabled := e₂ } call_path parameters method
        response_type params_as_json resp).outcome
    ∧ (do_request { cfg with log_enabled := e₁ } call_path parameters method
        response_type params_as_json resp).url
      = (do_request { cfg with log_enabled := e₂ } call_path parameters method
        response_type params_as_json resp).url
    ∧ (do_request { cfg with log_enabled := e₁ } call_path parameters method
        response_type params_as_json resp).headers
      = (do_request { cfg with log_enabled := e₂ } call_path parameters method
        response_type params_as_json resp).headers
    ∧ (do_request { cfg with log_enabled := e₁ } call_path parameters method
        response_type params_as_json resp).encoding
      = (do_request { cfg with log_enabled := e₂ } call_path parameters method
        response_type params_as_json resp).encoding := by
  refine ⟨rfl, rfl, rfl, rfl⟩

/-- An XML element as `ElementTree` exposes it to `_parse_stats`: a tag,
an attribute dictionary (attribute names already in `{namespace}name`
form), and the child elements in document order. -/
inductive XmlNode where
  | mk (tag : String) (attrib : List (String × String)) (children : List XmlNode)

/-- The element's tag. -/
def XmlNode.tag : XmlNode → String
  | .mk t _ _ => t

/-- `element.get(key)`: attribute lookup, `None` when absent. -/
def XmlNode.get : XmlNode → String → Option String
  | .mk _ attrib _, key => (attrib.find? (fun p => p.1 = key)).map (fun p => p.2)

/-- The element's direct children. -/
def XmlNode.children : XmlNode → List XmlNode
  | .mk _ _ cs => cs

/-- `element.find(tag)`: the first direct child with the given tag,
`None` when there is none. -/
def XmlNode.find : XmlNode → String → Option XmlNode
  | .mk _ _ cs, t => cs.find? (fun c => c.tag = t)

/-- `IContactClient.NAMESPACE` (client.py:60). -/
def NAMESPACE : String := "http://www.w3.org/1999/xlink"

/-- The attribute key `'\x7b%s\x7dhref' % self.NAMESPACE` used for the
namespaced link attribute (client.py:180, 200). -/
def xlink_href : String := "\x7b" ++ NAMESPACE ++ "\x7dhref"

/-- The exceptions the stats parser can raise: `TypeError` (`float` or
the date parser applied to `None`) and `ValueError` (`int`/`float`
applied to a malformed string). -/
inductive ParseErr where
  | typeError
  | valueError
deriving Repr, DecidableEq

/-- The numeric value of a non-empty, all-digit character sequence. -/
def digitsVal (cs : List Char) : Option Nat :=
  if cs = [] then none
  else if cs.all Char.isDigit then
    some (cs.foldl (fun a c => a * 10 + (c.toNat - 48)) 0)
  else none

/-- Python `int(s)` on the attribute strings appearing here: an optional
sign followed by decimal digits; anything else raises `ValueError`. -/
def pyIntParse (s : String) : Option Int :=
  match s.data with
  | '-' :: cs => (digitsVal cs).map (fun n => -(n : Int))
  | '+' :: cs => (digitsVal cs).map (fun n => (n : Int))
  | cs => (digitsVal cs).map (fun n => (n : Int))

/-- `int(s)` in the `Except` monad. -/
def pyIntE (s : String) : Except ParseErr Int :=
  match pyIntParse s with
  | some n => .ok n
  | none => .error .valueError

/-- The exact value of a parsed decimal literal, kept unnormalized as
`mantissa / 10 ^ frac_digits` (the claims never do float arithmetic, so
the exact decimal reading of `float()` is the faithful model). -/
structure DecimalFloat where
  mantissa : Int
  frac_digits : Nat
deriving Repr, DecidableEq

/-- Split a character sequence at the first `.`, keeping what follows. -/
def breakAtDot : List Char → List Char × Option (List Char)
  | [] => ([], none)
  | c :: cs =>
    if c = '.' then ([], some cs)
    else
      let (ip, fp) := breakAtDot cs
      (c :: ip, fp)

/-- Python `float(s)` on plain decimal literals (optional sign, digits,
optional fraction), the only shape the stats attributes take; anything
else raises `ValueError`. -/
def parseDecimalFloat (s : String) : Option DecimalFloat :=
  let (neg, cs) :=
    match s.data with
    | '-' :: rest => (true, rest)
    | '+' :: rest => (false, rest)
    | rest => (false, rest)
  match breakAtDot cs with
  | (ip, none) => (digitsVal ip).map (fun n => ⟨if neg then -(n : Int) else (n : Int), 0⟩)
  | (ip, some fpart) =>
      match digitsVal ip, digitsVal fpart with
      | some i, some f =>
          let m : Int := ((i * 10 ^ fpart.length + f : Nat) : Int)
          some ⟨if neg then -m else m, fpart.length⟩
      | _, _ => none

/-- `float(x)` where `x` came from `element.get(...)`: on `None` Python
raises `TypeError`; on a string it parses or raises `ValueError`. -/
def pyFloatE : Option String → Except ParseErr DecimalFloat
  | none => .error .typeError
  | some s =>
      match parseDecimalFloat s with
      | some d => .ok d
      | none => .error .valueError

/-- Python `x or default` for `x` an optional string: the default stands
in for both `None` and the empty (falsy) string (client.py:178). -/
def pyOrDefault : Option String → String → String
  | some s, d => if s = "" then d else s
  | none, d => d

/-- One summary record of `_parse_stats`: the keys `count`, `percent`,
`href` (the namespaced link, possibly absent) always present, `unique`
present only when that attribute was truthy. -/
structure StatsSummary where
  count : Int
  percent : DecimalFloat
  href : Option String
  unique : Option Int
deriving Repr, DecidableEq

/-- The conditional `if stats_node.get('unique'): summary['unique'] =
int(stats_node.get('unique'))` (client.py:181-182): no entry when the
attribute is absent or empty (falsy), otherwise its `int` conversion. -/
def unique_value (stats_node : XmlNode) : Except ParseErr (Option Int) :=
  match stats_node.get "unique" with
  | some s => if s = "" then pure none else Except.map some (pyIntE s)
  | none => pure none

/-- `summary_to_dict` (client.py:174-183): `None` maps to `None`;
otherwise `count` is `int(get('count') or '0')`, `percent` is
`float(get('percent'))` with no default, `href` is the namespaced link
attribute as-is, and `unique` is added only when the attribute is truthy. -/
def summary_to_dict : Option XmlNode → Except ParseErr (Option StatsSummary)
  | none => .ok none
  | some stats_node => do
      let count ← pyIntE (pyOrDefault (stats_node.get "count") "0")
      let percent ← pyFloatE (stats_node.get "percent")
      let href := stats_node.get xlink_href
      let uval ← unique_value stats_node
      pure (some { count := count, percent := percent, href := href, unique := uval })

/-- One contact record of `_parse_stats` (client.py:195-205): the
`email`, `name` and namespaced link attributes, and the `date` attribute
of every child element, parsed by `dateutil` — which raises `TypeError`
on a missing (`None`) date; the parsed date is modelled by the date
string it came from. -/
structure ContactRecord where
  email : Option String
  name : Option String
  href : Option String
  dates : List String
deriving Repr, DecidableEq

/-- The loop over `c.findall('*')` collecting `parse(date_node.get('date'))`. -/
def contact_dates : List XmlNode → Except ParseErr (List String)
  | [] => .ok []
  | d :: rest =>
      match d.get "date" with
      | none => .error .typeError
      | some s => do
          let ds ← contact_dates rest
          pure (s :: ds)

/-- One iteration of the contact loop (client.py:196-205). -/
def parse_contact (c : XmlNode) : Except ParseErr ContactRecord := do
  let ds ← contact_dates c.children
  pure { email := c.get "email", name := c.get "name", href := c.get xlink_href, dates := ds }

/-- The whole contact loop. -/
def parse_contacts : List XmlNode → Except ParseErr (List ContactRecord)
  | [] => .ok []
  | c :: rest => do
      let r ← parse_contact c
      let rs ← parse_contacts rest
      pure (r :: rs)

/-- `node.findall('*/contact')`: the `contact` elements among the
children of each child, in document order. -/
def findall_star_contact (node : XmlNode) : List XmlNode :=
  node.children.foldr
    (fun c acc => (c.children.filter (fun g => g.tag = "contact")) ++ acc) []

/-- The dictionary of dictionaries `_parse_stats` returns: one optional
summary per metric, plus the contact list. -/
structure StatsResults where
  released : Option StatsSummary
  bounces : Option StatsSummary
  unsubscribes : Option StatsSummary
  opens : Option StatsSummary
  clicks : Option StatsSummary
  forwards : Option StatsSummary
  comments : Option StatsSummary
  complaints : Option StatsSummary
  contacts : List ContactRecord
deriving Repr, DecidableEq

/-- `_parse_stats` (client.py:167-207). The `complaints` entry is filled
from `node.find('complaintss')` — the double-s tag is exactly what
client.py:193 passes. -/
def parse_stats (node : XmlNode) : Except ParseErr StatsResults := do
  let released ← summary_to_dict (node.find "released")
  let bounces ← summary_to_dict (node.find "bounces")
  let unsubscribes ← summary_to_dict (node.find "unsubscribes")
  let opens ← summary_to_dict (node.find "opens")
  let clicks ← summary_to_dict (node.find "clicks")
  let forwards ← summary_to_dict (node.find "forwards")
  let comments ← summary_to_dict (node.find "comments")
  let complaints ← summary_to_dict (node.find "complaintss")
  let contacts ← parse_contacts (findall_star_contact node)
  pure { released := released, bounces := bounces, unsubscribes := unsubscribes,
         opens := opens, clicks := clicks, forwards := forwards,
         comments := comments, complaints := complaints, contacts := contacts }

theorem except_bind_eq_ok {ε α β : Type} (x : Except ε α) (f : α → Except ε β) (b : β) :
    Bind.bind x f = Except.ok b ↔ ∃ a, x = Except.ok a ∧ f a = Except.ok b := by
  cases x with
  | error e =>
      constructor
      · intro h
        exact absurd h (by simp [Bind.bind, Except.bind])
      · rintro ⟨a, ha, -⟩
        cases ha
  | ok a =>
      constructor
      · intro h
        exact ⟨a, rfl, h⟩
      · rintro ⟨a', ha, hf⟩
        cases ha
        exact hf

/-- Successful `_parse_stats` runs are componentwise successful
`summary_to_dict` runs on the corresponding `find` results. -/
theorem parse_stats_components (node : XmlNode) (r : StatsResults)
    (h : parse_stats node = .ok r) :
    summary_to_dict (node.find "released") = .ok r.released
    ∧ summary_to_dict (node.find "bounces") = .ok r.bounces
    ∧ summary_to_dict (node.find "unsubscribes") = .ok r.unsubscribes
    ∧ summary_to_dict (node.find "opens") = .ok r.opens
    ∧ summary_to_dict (node.find "clicks") = .ok r.clicks
    ∧ summary_to_dict (node.find "forwards") = .ok r.forwards
    ∧ summary_to_dict (node.find "comments") = .ok r.comments
    ∧ summary_to_dict (node.find "complaintss") = .ok r.complaints := by
  unfold parse_stats at h
  rw [except_bind_eq_ok] at h
  obtain ⟨rel, hrel, h⟩ := h
  rw [except_bind_eq_ok] at h
  obtain ⟨bou, hbou, h⟩ := h
  rw [except_bind_eq_ok] at h
  obtain ⟨uns, huns, h⟩ := h
  rw [except_bind_eq_ok] at h
  obtain ⟨ope, hope, h⟩ := h
  rw [except_bind_eq_ok] at h
  obtain ⟨cli, hcli, h⟩ := h
  rw [except_bind_eq_ok] at h
  obtain ⟨fwd, hfwd, h⟩ := h
  rw [except_bind_eq_ok] at h
  obtain ⟨com, hcom, h⟩ := h
  rw [except_bind_eq_ok] at h
  obtain ⟨cmp, hcmp, h⟩ := h
  rw [except_bind_eq_ok] at h
  obtain ⟨cts, hcts, h⟩ := h
  cases h
  exact ⟨hrel, hbou, huns, hope, hcli, hfwd, hcom, hcmp⟩

/-- A successful `summary_to_dict` on a present element yields a record
whose `count`, `percent` and `href` come from the element's attributes,
with `unique` present only when that attribute is. -/
theorem summary_to_dict_ok_some (n : XmlNode) (o : Option StatsSummary)
    (h : summary_to_dict (some n) = .ok o) :
    ∃ s, o = some s
      ∧ pyIntE (pyOrDefault (n.get "count") "0") = .ok s.count
      ∧ pyFloatE (n.get "percent") = .ok s.percent
      ∧ s.href = n.get xlink_href
      ∧ (s.unique.isSome = true → (n.get "unique").isSome = true) := by
  unfold summary_to_dict at h
  rw [except_bind_eq_ok] at h
  obtain ⟨c, hc, h⟩ := h
  rw [except_bind_eq_ok] at h
  obtain ⟨p, hp, h⟩ := h
  rw [except_bind_eq_ok] at h
  obtain ⟨u, hu, h⟩ := h
  have h' : Except.ok (some (⟨c, p, n.get xlink_href, u⟩ : StatsSummary))
      = Except.ok o := h
  cases h'
  refine ⟨⟨c, p, n.get xlink_href, u⟩, rfl, hc, hp, rfl, ?_⟩
  intro hus
  cases hget : n.get "unique" with
  | some s => rfl
  | none =>
      rw [unique_value, hget] at hu
      have hu' : (Except.ok none : Except ParseErr (Option Int)) = Except.ok u := hu
      cases hu'
      cases hus

/-- C3: when the stats node has no `bounces` child, the parsed summary's
`bounces` entry carries no record at all (`None`, not a zero-filled
record), while a present child such as `opens` yields a record populated
with the count (as converted, zero-defaulted), the percent (as
converted), and the namespaced link attribute. -/
theorem stats_absent_vs_present (node : XmlNode) (r : StatsResults)
    (hparse : parse_stats node = .ok r) :
    (node.find "bounces" = none → r.bounces = none)
    ∧ (∀ op, node.find "opens" = some op →
        ∃ s, r.opens = some s
          ∧ pyIntE (pyOrDefault (op.get "count") "0") = .ok s.count
          ∧ pyFloatE (op.get "percent") = .ok s.percent
          ∧ s.href = op.get xlink_href) := by
  obtain ⟨-, hbou, -, hope, -, -, -, -⟩ := parse_stats_components node r hparse
  constructor
  · intro hb
    rw [hb] at hbou
    have h' : (Except.ok none : Except ParseErr (Option StatsSummary))
        = Except.ok r.bounces := hbou
    injection h' with h2
    exact h2.symm
  · intro op hop
    rw [hop] at hope
    obtain ⟨s, hs, hcnt, hpct, hhref, -⟩ := summary_to_dict_ok_some op r.opens hope
    exact ⟨s, hs, hcnt, hpct, hhref⟩

/-- A stats node with an `opens` child and no `bounces` child. -/
def opensNodeEx : XmlNode :=
  .mk "opens" [("count", "10"), ("percent", "50.0"), (xlink_href, "https://e.com/o")] []

def statsNodeEx : XmlNode := .mk "stats" [] [opensNodeEx]

/-- The value `_parse_stats` computes on `statsNodeEx`. -/
def statsResultsEx : StatsResults :=
  { released := none, bounces := none, unsubscribes := none,
    opens := some { count := 10, percent := ⟨500, 1⟩, href := some "https://e.com/o",
                    unique := none },
    clicks := none, forwards := none, comments := none, complaints := none,
    contacts := [] }

/-- Closed instance of C3 on `statsNodeEx`. -/
theorem stats_absent_vs_present_witness :
    statsResultsEx.bounces = none
    ∧ ∃ s, statsResultsEx.opens = some s
        ∧ pyIntE (pyOrDefault (XmlNode.get opensNodeEx "count") "0") = .ok s.count
        ∧ pyFloatE (XmlNode.get opensNodeEx "percent") = .ok s.percent
        ∧ s.href = XmlNode.get opensNodeEx xlink_href := by
  have h := stats_absent_vs_present statsNodeEx statsResultsEx rfl
  exact ⟨h.1 rfl, h.2 opensNodeEx rfl⟩

/-- C5: in `summary_to_dict` a missing `count` attribute yields count
zero in any successful summary; a missing `percent` attribute makes the
parse fail with an exception instead of substituting a default; and the
`unique` entry is present in the summary only when the `unique`
attribute is present on the element. -/
theorem summary_attr_edge_cases (n : XmlNode) :
    (∀ s, n.get "count" = none → summary_to_dict (some n) = .ok (some s) → s.count = 0)
    ∧ (n.get "percent" = none → ∃ err, summary_to_dict (some n) = .error err)
    ∧ (∀ s, summary_to_dict (some n) = .ok (some s) → s.unique.isSome = true →
        (n.get "unique").isSome = true) := by
  refine ⟨?_, ?_, ?_⟩
  · intro s hc h
    obtain ⟨s', hs', hcnt, -, -, -⟩ := summary_to_dict_ok_some n (some s) h
    injection hs' with hss
    rw [hc] at hcnt
    have h0 : (Except.ok 0 : Except ParseErr Int) = .ok s'.count := hcnt
    injection h0 with h0
    rw [hss, ← h0]
  · intro hp
    cases hcv : pyIntE (pyOrDefault (n.get "count") "0") with
    | error e =>
        refine ⟨e, ?_⟩
        simp only [summary_to_dict]
        rw [hcv]
        rfl
    | ok c =>
        refine ⟨.typeError, ?_⟩
        simp only [summary_to_dict]
        rw [hcv, hp]
        rfl
  · intro s h hus
    obtain ⟨s', hs', -, -, -, huniq⟩ := summary_to_dict_ok_some n (some s) h
    injection hs' with hss
    exact huniq (hss ▸ hus)

/-- An element with `percent` but no `count` attribute. -/
def noCountNodeEx : XmlNode := .mk "opens" [("percent", "1.5")] []

/-- An element with `count` but no `percent` attribute. -/
def noPercentNodeEx : XmlNode := .mk "opens" [("count", "2")] []

/-- An element with `percent` and a `unique` attribute. -/
def uniqueNodeEx : XmlNode := .mk "opens" [("percent", "1"), ("unique", "4")] []

/-- Closed instance of C5 on the three example elements. -/
theorem summary_attr_edge_cases_witness :
    (⟨0, ⟨15, 1⟩, none, none⟩ : StatsSummary).count = 0
    ∧ (∃ err, summary_to_dict (some noPercentNodeEx) = .error err)
    ∧ (XmlNode.get uniqueNodeEx "unique").isSome = true := by
  refine ⟨?_, ?_, ?_⟩
  · exact (summary_attr_edge_cases noCountNodeEx).1 ⟨0, ⟨15, 1⟩, none, none⟩ rfl rfl
  · exact (summary_attr_edge_cases noPercentNodeEx).2.1 rfl
  · exact (summary_attr_edge_cases uniqueNodeEx).2.2 ⟨0, ⟨1, 0⟩, none, some 4⟩ rfl rfl

/-- A stats node with a `complaints` child carrying count and percent. -/
def complaintsChildEx : XmlNode := .mk "complaints" [("count", "3"), ("percent", "1.5")] []

def complaintsStatsNodeEx : XmlNode := .mk "stats" [] [complaintsChildEx]

/-- C6 (evaluation at the failing input): the node contains a
`complaints` child which `find('complaints')` would locate and
`summary_to_dict` converts without error, yet `_parse_stats` leaves the
`complaints` entry empty, because client.py:193 searches the tag
`complaintss` (double s), which the node does not have. -/
theorem parse_stats_complaints_tag :
    XmlNode.find complaintsStatsNodeEx "complaints" = some complaintsChildEx
    ∧ summary_to_dict (some complaintsChildEx)
        = .ok (some { count := 3, percent := ⟨15, 1⟩, href := none, unique := none })
    ∧ parse_stats complaintsStatsNodeEx
        = .ok { released := none, bounces := none, unsubscribes := none, opens := none,
                clicks := none, forwards := none, comments := none, complaints := none,
                contacts := [] }
    ∧ XmlNode.find complaintsStatsNodeEx "complaintss" = none :=
  ⟨rfl, rfl, rfl, rfl⟩

/-- What the discovery endpoints report: the first account's id
(`account().accountId`) and the first client folder's id
(`clientfolder(...).clientFolderId`). -/
structure DiscoveryEnv where
  accountId : Nat
  clientFolderId : Nat
deriving Repr, DecidableEq

/-- The client's cached resource ids, `self.account_id` and
`self.client_folder_id` (client.py:89-90), both possibly unset. -/
structure ClientState where
  account_id : Option Nat
  client_folder_id : Option Nat
deriving Repr, DecidableEq

/-- Python `'%s' % x` on an optional id: `None` formats as `"None"`. -/
def pyFmt : Option Nat → String
  | none => "None"
  | some n => toString n

/-- `_get_account_id` (client.py:97-99): `self.account()` issues the
request with path `a`, the first account's id is stored in
`self.account_id` and returned.  The path list is the trace of request
paths issued. -/
def get_account_id (env : DiscoveryEnv) (st : ClientState) :
    ClientState × Nat × List String :=
  ({ st with account_id := some env.accountId }, env.accountId, ["a"])

/-- `_get_client_folder_id` (client.py:101-103):
`self.clientfolder(self.account_id)` issues the request with path
`'a/%s/c/' % account_id` formatted from the client's STORED
`self.account_id` (client.py:218-231), stores the first folder's id in
`self.client_folder_id` and returns it. -/
def get_client_folder_id (env : DiscoveryEnv) (st : ClientState) :
    ClientState × Nat × List String :=
  ({ st with client_folder_id := some env.clientFolderId }, env.clientFolderId,
   ["a/" ++ pyFmt st.account_id ++ "/c/"])

/-- `_required_values` (client.py:233-242): fill each id in turn — use
the per-call value when supplied, else the cached field, else run the
discovery lookup and cache its result.  Returns the updated cache, the
resolved pair, and the discovery request paths issued, in order. -/
def required_values (env : DiscoveryEnv) (st0 : ClientState)
    (account_id client_folder_id : Option Nat) :
    ClientState × (Nat × Nat) × List String :=
  let (st1, acc, tr1) :=
    match account_id with
    | some a => (st0, a, ([] : List String))
    | none =>
        match st0.account_id with
        | some a => (st0, a, [])
        | none => get_account_id env st0
  let (st2, cf, tr2) :=
    match client_folder_id with
    | some c => (st1, c, ([] : List String))
    | none =>
        match st1.client_folder_id with
        | some c => (st1, c, [])
        | none => get_client_folder_id env st1
  (st2, (acc, cf), tr1 ++ tr2)

/-- `lists` (client.py:256-268): resolve the ids through
`_required_values`, then issue the request with path
`'a/%s/c/%s/lists/'`.  Returns the updated cache and the trace of every
request path issued by the call, in order. -/
def lists_op (env : DiscoveryEnv) (st : ClientState)
    (account_id client_folder_id : Option Nat) : ClientState × List String :=
  let (st', ids, tr) := required_values env st account_id client_folder_id
  (st', tr ++ ["a/" ++ toString ids.1 ++ "/c/" ++ toString ids.2 ++ "/lists/"])

/-- C4: starting with neither id cached, a `lists` call with no per-call
ids issues exactly the account lookup, then the client-folder lookup,
then the lists request, in that order; it caches both resolved ids; and
a subsequent call with no per-call ids issues only the lists request and
leaves the cache unchanged. -/
theorem discovery_caching (env : DiscoveryEnv) (st : ClientState)
    (hacc : st.account_id = none) (hcf : st.client_folder_id = none) :
    (lists_op env st none none).2
      = ["a", "a/" ++ toString env.accountId ++ "/c/",
         "a/" ++ toString env.accountId ++ "/c/" ++ toString env.clientFolderId ++ "/lists/"]
    ∧ (lists_op env st none none).1
      = { account_id := some env.accountId, client_folder_id := some env.clientFolderId }
    ∧ lists_op env (lists_op env st none none).1 none none
      = ((lists_op env st none none).1,
         ["a/" ++ toString env.accountId ++ "/c/" ++ toString env.clientFolderId
           ++ "/lists/"]) := by
  obtain ⟨sa, sc⟩ := st
  simp only at hacc hcf
  subst hacc
  subst hcf
  refine ⟨?_, ?_, ?_⟩ <;>
    simp [lists_op, required_values, get_account_id, get_client_folder_id, pyFmt]

/-- Closed instance of C4 with account id 7 and client-folder id 9. -/
theorem discovery_caching_witness :
    (lists_op ⟨7, 9⟩ ⟨none, none⟩ none none).2 = ["a", "a/7/c/", "a/7/c/9/lists/"]
    ∧ (lists_op ⟨7, 9⟩ ⟨none, none⟩ none none).1 = ⟨some 7, some 9⟩
    ∧ lists_op ⟨7, 9⟩ (lists_op ⟨7, 9⟩ ⟨none, none⟩ none none).1 none none
      = ((lists_op ⟨7, 9⟩ ⟨none, none⟩ none none).1, ["a/7/c/9/lists/"]) := by
  have h := discovery_caching ⟨7, 9⟩ ⟨none, none⟩ rfl rfl
  refine ⟨?_, ?_, ?_⟩
  · rw [h.1]
    rfl
  · rw [h.2.1]
  · rw [h.2.2]
    rfl

/-- C10: when a per-call `account_id` is supplied but no client-folder id
is supplied or cached, the folder-discovery request path is formatted
from the client's STORED `account_id` field — whatever it holds, in
particular `None` when nothing is cached — and not from the per-call
value, which does not appear in the discovery trace at all. -/
theorem folder_discovery_uses_stored_account (env : DiscoveryEnv) (st : ClientState)
    (a : Nat) (hcf : st.client_folder_id = none) :
    (required_values env st (some a) none).2.2
      = ["a/" ++ pyFmt st.account_id ++ "/c/"]
    ∧ (st.account_id = none →
        (required_values env st (some a) none).2.2 = ["a/None/c/"]) := by
  obtain ⟨sa, sc⟩ := st
  simp only at hcf
  subst hcf
  constructor
  · simp [required_values, get_client_folder_id]
  · intro ha
    simp only at ha
    subst ha
    simp [required_values, get_client_folder_id, pyFmt]

/-- Closed instance of C10: per-call account id 5, empty cache — the
folder discovery goes to `a/None/c/`. -/
theorem folder_discovery_uses_stored_account_witness :
    (required_values ⟨7, 9⟩ ⟨none, none⟩ (some 5) none).2.2
      = ["a/" ++ pyFmt (ClientState.account_id ⟨none, none⟩) ++ "/c/"]
    ∧ (required_values ⟨7, 9⟩ ⟨none, none⟩ (some 5) none).2.2 = ["a/None/c/"] := by
  have h := folder_discovery_uses_stored_account ⟨7, 9⟩ ⟨none, none⟩ 5 rfl
  exact ⟨h.1, h.2 rfl⟩
